import Mathlib

/-!
Verification of the Galatea-OS voice-agent repository: a shallow embedding of
`src/tools/snowflake_rag_tool.py` and `src/rime_agent.py` in Lean 4, with
theorems settling the behavioural claims about transcript logging, the
Snowflake retrieval tool, and session configuration.

Modelling conventions:
* Python values flowing through the code (JSON documents, config entries,
  event payloads) are modelled by the inductive type `Galatea.Json`, with
  Python truthiness given by `Galatea.pyTruthy`.
* `os.getenv` results are `Option String` (absent variable = `none`).
* External effects (PEM key loading, `snowflake.connector.connect`,
  `cursor.execute`, `conn.commit`, `cursor.fetchone`) are supplied as an
  oracle `Galatea.Warehouse` whose fields say whether each operation
  succeeds or raises, and what the fetched row is.  A fetched first column
  is modelled after Python's `str()` has been applied, `none` meaning SQL
  NULL.
* Exceptions are explicit: functions that can propagate a Python exception
  return `Galatea.Outcome`, carrying `str(e)` of the exception.
* JSON numbers are modelled exactly as rationals (Python parses them to
  floats; no verified claim depends on float rounding).  The parser models
  the standard JSON grammar accepted by `json.loads` (objects, arrays,
  strings with the usual escapes, numbers, `true`/`false`/`null`); the
  non-standard `NaN`/`Infinity` extension and surrogate-pair combining are
  outside the modelled subset and outside every claim.
-/

namespace Galatea

/-- Python `str.strip` whitespace predicate: space, tab, newline, carriage
return, vertical tab and form feed (ASCII; unicode whitespace is not
exercised by any claim). -/
def isPySpace (c : Char) : Bool :=
  c = ' ' || c = '\t' || c = '\n' || c = '\r' || c = '\x0b' || c = '\x0c'

/-- Python `s.strip()`: drop leading and trailing whitespace. -/
def pyStrip (s : String) : String :=
  ⟨((s.data.dropWhile isPySpace).reverse.dropWhile isPySpace).reverse⟩

/-- Python `s.strip(c)` for a single character `c`: drop that character from
both ends. -/
def pyStripChar (c : Char) (s : String) : String :=
  ⟨((s.data.dropWhile (· = c)).reverse.dropWhile (· = c)).reverse⟩

/-- Truthiness of an `os.getenv` result: `None` and the empty string are
falsy. -/
def truthyEnv : Option String → Bool
  | none => false
  | some s => s ≠ ""

/-- The configured-value-or-empty idiom `os.getenv(k) or ""` / `getD ""`. -/
def envD (o : Option String) : String := o.getD ""

/-- Left brace character (used when rendering modelled JSON/SQL text). -/
def lbr : Char := Char.ofNat 123

/-- Right brace character. -/
def rbr : Char := Char.ofNat 125

/-- Single-quote character, as a string piece. -/
def sq : String := (Char.ofNat 39).toString

/-- Python values as produced by `json.loads` / JSON config documents:
`None`, booleans, numbers (modelled exactly as rationals), strings, lists
and dicts.  Dicts are kept as the association list in parse order; lookups
take the last binding, matching Python's last-wins duplicate-key
behaviour. -/
inductive Json where
  | null : Json
  | bool (b : Bool) : Json
  | num (q : ℚ) : Json
  | str (s : String) : Json
  | arr (xs : List Json) : Json
  | obj (fs : List (String × Json)) : Json

/-- Last-wins association-list lookup, matching the Python dict built by
`json.loads` where a duplicated key keeps the last value. -/
def lookupLast (fs : List (String × Json)) (k : String) : Option Json :=
  match fs with
  | [] => none
  | (k0, v0) :: rest =>
    match lookupLast rest k with
    | some v => some v
    | none => if k0 = k then some v0 else none

/-- Python truthiness of a modelled value: `None`, `False`, zero, the empty
string, the empty list and the empty dict are falsy. -/
def pyTruthy : Json → Bool
  | Json.null => false
  | Json.bool b => b
  | Json.num q => q ≠ 0
  | Json.str s => s ≠ ""
  | Json.arr xs => !xs.isEmpty
  | Json.obj fs => !fs.isEmpty

/-- Result of a Python computation: a value, or a propagating exception
carrying `str(e)`. -/
inductive Outcome (α : Type) where
  | ok (a : α) : Outcome α
  | exn (msg : String) : Outcome α

instance : Monad Outcome where
  pure a := Outcome.ok a
  bind x f :=
    match x with
    | Outcome.ok a => f a
    | Outcome.exn m => Outcome.exn m

/-- Python `d.get(key, default)`: dict lookup with default; raises
`AttributeError` on a non-dict receiver. -/
def dictGet (d : Json) (key : String) (dflt : Json) : Outcome Json :=
  match d with
  | Json.obj fs => Outcome.ok ((lookupLast fs key).getD dflt)
  | _ => Outcome.exn "AttributeError"

/-- JSON whitespace accepted between tokens by `json.loads`. -/
def jsonWs (c : Char) : Bool :=
  c = ' ' || c = '\t' || c = '\n' || c = '\r'

/-- Value of one hexadecimal digit, if any. -/
def hexVal (c : Char) : Option Nat :=
  if 48 ≤ c.toNat ∧ c.toNat ≤ 57 then some (c.toNat - 48)
  else if 97 ≤ c.toNat ∧ c.toNat ≤ 102 then some (c.toNat - 87)
  else if 65 ≤ c.toNat ∧ c.toNat ≤ 70 then some (c.toNat - 55)
  else none

/-- Body of a JSON string literal after the opening quote: consume up to the
closing quote, decoding the standard escapes.  Returns the decoded string
and the remaining input. -/
def parseStringBody : Nat → List Char → Option (String × List Char)
  | 0, _ => none
  | _, [] => none
  | fuel + 1, c :: rest =>
    if c = '"' then some ("", rest)
    else if c = '\\' then
      match rest with
      | [] => none
      | e :: rest2 =>
        let dec : Option (Char × List Char) :=
          if e = '"' then some ('"', rest2)
          else if e = '\\' then some ('\\', rest2)
          else if e = '/' then some ('/', rest2)
          else if e = 'b' then some ('\x08', rest2)
          else if e = 'f' then some ('\x0c', rest2)
          else if e = 'n' then some ('\n', rest2)
          else if e = 'r' then some ('\r', rest2)
          else if e = 't' then some ('\t', rest2)
          else if e = 'u' then
            match rest2 with
            | h1 :: h2 :: h3 :: h4 :: rest3 =>
              match hexVal h1, hexVal h2, hexVal h3, hexVal h4 with
              | some a, some b, some c3, some d =>
                some (Char.ofNat (((a * 16 + b) * 16 + c3) * 16 + d), rest3)
              | _, _, _, _ => none
            | _ => none
          else none
        match dec with
        | some (ch, rest3) =>
          match parseStringBody fuel rest3 with
          | some (s, rem) => some (⟨ch :: s.data⟩, rem)
          | none => none
        | none => none
    else
      match parseStringBody fuel rest with
      | some (s, rem) => some (⟨c :: s.data⟩, rem)
      | none => none

/-- Interpret a list of decimal digit characters as a natural number. -/
def digitsToNat (ds : List Char) : Nat :=
  ds.foldl (fun a c => a * 10 + (c.toNat - 48)) 0

/-- Parse a JSON number per the grammar `json.loads` accepts:
`-? (0 | [1-9][0-9]*) (. [0-9]+)? ([eE][+-]?[0-9]+)?`, evaluated exactly as
a rational. -/
def parseNumber (s : List Char) : Option (Json × List Char) :=
  let (neg, s1) :=
    match s with
    | '-' :: r => (true, r)
    | _ => (false, s)
  match s1 with
  | [] => none
  | c :: _ =>
    if ¬ c.isDigit then none
    else
      let (intDigits, s2) :=
        if c = '0' then ([c], s1.tail)
        else (s1.takeWhile Char.isDigit, s1.dropWhile Char.isDigit)
      let (fracDigits, s3) :=
        match s2 with
        | '.' :: r =>
          let fd := r.takeWhile Char.isDigit
          if fd = [] then ([], '.' :: r) else (fd, r.dropWhile Char.isDigit)
        | _ => ([], s2)
      let okFrac : Bool :=
        match s2 with
        | '.' :: r => !(r.takeWhile Char.isDigit).isEmpty
        | _ => true
      let (expNeg, expDigits, s4, okExp) :=
        match s3 with
        | 'e' :: r | 'E' :: r =>
          let (en, r2) :=
            match r with
            | '+' :: r2 => (false, r2)
            | '-' :: r2 => (true, r2)
            | _ => (false, r)
          let ed := r2.takeWhile Char.isDigit
          (en, ed, r2.dropWhile Char.isDigit, !ed.isEmpty)
        | _ => (false, ([] : List Char), s3, true)
      if okFrac && okExp then
        let base : ℚ :=
          (digitsToNat intDigits : ℚ) +
            (digitsToNat fracDigits : ℚ) / ((10 : ℚ) ^ fracDigits.length)
        let mag : ℚ :=
          if expNeg then base / ((10 : ℚ) ^ digitsToNat expDigits)
          else base * ((10 : ℚ) ^ digitsToNat expDigits)
        some (Json.num (if neg then -mag else mag), s4)
      else none

/-- Check that the input begins with the given literal characters. -/
def eatLit : List Char → List Char → Option (List Char)
  | [], s => some s
  | l :: ls, c :: s => if c = l then eatLit ls s else none
  | _ :: _, [] => none

mutual

/-- Recursive-descent parse of one JSON value.  Fuel-bounded with strictly
structural recursion so that the definition reduces inside the kernel; the
fuel chosen by `json_loads` always suffices since every recursive step
consumes input. -/
def parseVal : Nat → List Char → Option (Json × List Char)
  | 0, _ => none
  | fuel + 1, s =>
    let s := s.dropWhile jsonWs
    match s with
    | [] => none
    | c :: rest =>
      if c = '"' then
        match parseStringBody (fuel + 1) rest with
        | some (str, rem) => some (Json.str str, rem)
        | none => none
      else if c = lbr then parseObjRest fuel rest
      else if c = '[' then parseArrRest fuel rest
      else if c = 't' then
        match eatLit ['r', 'u', 'e'] rest with
        | some rem => some (Json.bool true, rem)
        | none => none
      else if c = 'f' then
        match eatLit ['a', 'l', 's', 'e'] rest with
        | some rem => some (Json.bool false, rem)
        | none => none
      else if c = 'n' then
        match eatLit ['u', 'l', 'l'] rest with
        | some rem => some (Json.null, rem)
        | none => none
      else parseNumber s

/-- Parse the inside of a JSON object after the opening brace. -/
def parseObjRest : Nat → List Char → Option (Json × List Char)
  | 0, _ => none
  | fuel + 1, s =>
    let s := s.dropWhile jsonWs
    match s with
    | [] => none
    | c :: _ =>
      if c = rbr then some (Json.obj [], s.tail)
      else
        match parseMembers fuel s with
        | some (fs, rem) => some (Json.obj fs, rem)
        | none => none

/-- Parse one or more `"key": value` members followed by `,` members or the
closing brace. -/
def parseMembers : Nat → List Char → Option (List (String × Json) × List Char)
  | 0, _ => none
  | fuel + 1, s =>
    let s := s.dropWhile jsonWs
    match s with
    | '"' :: rest =>
      match parseStringBody (fuel + 1) rest with
      | some (key, rem1) =>
        let rem1 := rem1.dropWhile jsonWs
        match rem1 with
        | ':' :: rem2 =>
          match parseVal fuel rem2 with
          | some (v, rem3) =>
            let rem3 := rem3.dropWhile jsonWs
            match rem3 with
            | ',' :: rem4 =>
              match parseMembers fuel rem4 with
              | some (fs, rem5) => some ((key, v) :: fs, rem5)
              | none => none
            | c :: rem4 =>
              if c = rbr then some ([(key, v)], rem4) else none
            | [] => none
          | none => none
        | _ => none
      | none => none
    | _ => none

/-- Parse the inside of a JSON array after the opening bracket. -/
def parseArrRest : Nat → List Char → Option (Json × List Char)
  | 0, _ => none
  | fuel + 1, s =>
    let s := s.dropWhile jsonWs
    match s with
    | [] => none
    | c :: _ =>
      if c = ']' then some (Json.arr [], s.tail)
      else
        match parseElems fuel s with
        | some (xs, rem) => some (Json.arr xs, rem)
        | none => none

/-- Parse one or more array elements followed by `,` elements or the closing
bracket. -/
def parseElems : Nat → List Char → Option (List Json × List Char)
  | 0, _ => none
  | fuel + 1, s =>
    match parseVal fuel s with
    | some (v, rem) =>
      let rem := rem.dropWhile jsonWs
      match rem with
      | ',' :: rem2 =>
        match parseElems fuel rem2 with
        | some (xs, rem3) => some (v :: xs, rem3)
        | none => none
      | ']' :: rem2 => some ([v], rem2)
      | _ => none
    | none => none

end

/-- The `json.loads` model: parse one JSON document, allowing surrounding
whitespace and rejecting trailing garbage (`none` = `JSONDecodeError`).
The fuel bound over-approximates the number of mutual-recursion steps,
which is at most a small multiple of the input length. -/
def json_loads (s : String) : Option Json :=
  match parseVal (4 * s.data.length + 8) s.data with
  | some (v, rem) => if rem.dropWhile jsonWs = [] then some v else none
  | none => none

/-! Embedding of `src/tools/snowflake_rag_tool.py`. -/

/-- Process environment slice read by the tool module: each field is the
`os.getenv` result for the corresponding `SNOWFLAKE_*` variable. -/
structure SnowEnv where
  account : Option String
  user : Option String
  password : Option String
  privateKeyPath : Option String
  privateKeyPass : Option String
  role : Option String
  warehouse : Option String
  database : Option String
  schema : Option String
  chatTable : Option String
  chatDatabase : Option String
  chatSchema : Option String
  ragModel : Option String
  ragSystemInstruction : Option String
  ragSql : Option String
deriving DecidableEq

/-- Oracle for the external effects of one warehouse operation: whether PEM
key loading, `snowflake.connector.connect`, `cursor.execute` and
`conn.commit` succeed or raise (carrying `str(e)`), and what
`cursor.fetchone` returns — `none` is no row, `some none` a NULL first
column, `some (some s)` a first column whose `str()` is `s`.  `close` calls
are modelled as non-failing (the source swallows their errors anyway). -/
structure Warehouse where
  keyLoad : Outcome Unit
  connect : Outcome Unit
  execute : Outcome Unit
  commit : Outcome Unit
  fetchone : Option (Option String)

/-- The `x.strip() or None` idiom used for warehouse/database/schema. -/
def orNone (s : String) : Option String := if s = "" then none else some s

/-- Cleaning applied to a configured password:
`password.strip().strip(doublequote).strip(singlequote)`. -/
def cleanPassword (p : String) : String :=
  pyStripChar (Char.ofNat 39) (pyStripChar '"' (pyStrip p))

/-- Connection parameter dict built from the environment (the loaded private
key object is modelled by the `hasPrivateKey` flag). -/
structure ConnectParams where
  account : String
  user : String
  warehouse : Option String
  database : Option String
  schema : Option String
  password : Option String
  hasPrivateKey : Bool
  role : Option String
deriving DecidableEq

/-- Embedding of `_get_connection_params` (lines 22-54): `none` when the
mandatory identity or any credential is missing; the PEM load (lines 43-48)
may raise, and that exception propagates to the caller (`keyLoad` is the
oracle for it). -/
def get_connection_params (env : SnowEnv) (keyLoad : Outcome Unit) :
    Outcome (Option ConnectParams) :=
  if truthyEnv env.account && truthyEnv env.user then
    let acct := pyStrip (envD env.account)
    let usr := pyStrip (envD env.user)
    let wh := orNone (pyStrip (envD env.warehouse))
    let db := orNone (pyStrip (envD env.database))
    let sc := orNone (pyStrip (envD env.schema))
    let rl := if truthyEnv env.role then some (pyStrip (envD env.role)) else none
    if truthyEnv env.password then
      Outcome.ok (some ⟨acct, usr, wh, db, sc,
        some (cleanPassword (envD env.password)), false, rl⟩)
    else if truthyEnv env.privateKeyPath then
      match keyLoad with
      | Outcome.ok _ => Outcome.ok (some ⟨acct, usr, wh, db, sc, none, true, rl⟩)
      | Outcome.exn m => Outcome.exn m
    else Outcome.ok none
  else Outcome.ok none

/-- One row bound into the chat INSERT (in the column order of the
statement); `created_at` is the UTC timestamp string. -/
structure ChatRow where
  session_id : String
  participant_id : String
  role : String
  message : String
  agent_name : String
  created_at : String
deriving DecidableEq

/-- Exit paths of `_write_chat_to_snowflake_sync`:
* `skippedBlank` — line 66-67 silent return (no table, or blank message);
* `skippedBadTable` — line 68-70 warning about the table identifier;
* `skippedNotConfigured` — line 72-74 warning, connection not configured;
* `raised` — `_get_connection_params` raised at line 71, outside the `try`,
  so the exception propagates out of the function;
* `failed` — connect/execute/commit raised inside the `try`, caught and
  logged at line 97-98;
* `wrote` — the row was inserted and committed; carries the connection
  params used, the interpolated statement text and the bound row. -/
inductive WriteOutcome where
  | skippedBlank : WriteOutcome
  | skippedBadTable : WriteOutcome
  | skippedNotConfigured : WriteOutcome
  | raised (msg : String) : WriteOutcome
  | failed (params : ConnectParams) (msg : String) : WriteOutcome
  | wrote (params : ConnectParams) (sql : String) (row : ChatRow) : WriteOutcome
deriving DecidableEq

/-- Word character of the pattern `[a-zA-Z0-9_]` (ASCII). -/
def isWordChar (c : Char) : Bool := c.isAlpha || c.isDigit || c = '_'

/-- Semantics of Python `re.match(pattern, s)` being truthy for the pattern
anchored as `^[a-zA-Z0-9_]+$`: one or more word characters spanning the
whole string, or the whole string up to a single trailing newline (Python's
`$` also matches just before a final newline). -/
def reMatchIdent (s : String) : Bool :=
  let core : List Char → Bool := fun l => !l.isEmpty && l.all isWordChar
  core s.data ||
    (match s.data.reverse with
     | '\n' :: body => core body.reverse
     | _ => false)

/-- Statement text built at lines 87-90, with the validated table name
interpolated into the SQL. -/
def chatSql (table : String) : String :=
  "INSERT INTO \"" ++ table ++
    "\" (session_id, participant_id, role, message, agent_name, created_at) " ++
    "VALUES (%s, %s, %s, %s, %s, %s)"

/-- Embedding of `_write_chat_to_snowflake_sync` (lines 57-104).  `now` is
the `datetime.now(timezone.utc).isoformat()` string.  The chat-specific
database/schema overrides of lines 77-82 are reflected in the params carried
by the outcome. -/
def write_chat_to_snowflake_sync (env : SnowEnv) (wh : Warehouse) (now : String)
    (session_id participant_id role message agent_name : String) : WriteOutcome :=
  let table := pyStrip (envD env.chatTable)
  if table = "" || message = "" || pyStrip message = "" then
    WriteOutcome.skippedBlank
  else if ¬ reMatchIdent table then
    WriteOutcome.skippedBadTable
  else
    match get_connection_params env wh.keyLoad with
    | Outcome.exn m => WriteOutcome.raised m
    | Outcome.ok none => WriteOutcome.skippedNotConfigured
    | Outcome.ok (some params) =>
      let db := if truthyEnv env.chatDatabase then some (envD env.chatDatabase)
        else params.database
      let sc := if truthyEnv env.chatSchema then some (envD env.chatSchema)
        else params.schema
      let params :=
        ⟨params.account, params.user, params.warehouse,
          (match db with | some d => some d | none => params.database),
          (match sc with | some s => some s | none => params.schema),
          params.password, params.hasPrivateKey, params.role⟩
      match wh.connect with
      | Outcome.exn m => WriteOutcome.failed params m
      | Outcome.ok _ =>
        match wh.execute with
        | Outcome.exn m => WriteOutcome.failed params m
        | Outcome.ok _ =>
          match wh.commit with
          | Outcome.exn m => WriteOutcome.failed params m
          | Outcome.ok _ =>
            WriteOutcome.wrote params (chatSql table)
              ⟨session_id, participant_id, role,
                ⟨(pyStrip message).data.take 65535⟩, agent_name, now⟩

/-- Whether the outcome reached `snowflake.connector.connect` (line 83);
everything from the statement interpolation on is behind this. -/
def connectionAttempted : WriteOutcome → Bool
  | WriteOutcome.failed _ _ => true
  | WriteOutcome.wrote _ _ _ => true
  | _ => false

/-- The message column value of an inserted-and-committed row, if any. -/
def insertedMessage : WriteOutcome → Option String
  | WriteOutcome.wrote _ _ row => some row.message
  | _ => none

/-- The interpolated statement text of an inserted-and-committed row. -/
def interpolatedSql : WriteOutcome → Option String
  | WriteOutcome.wrote _ sql _ => some sql
  | _ => none

/-- Fixed prefix of the tool's caught-exception message (line 199). -/
def kbPre : String :=
  "I couldn" ++ sq ++ "t get an answer from the knowledge base: "

/-- The full caught-exception string: prefix, `str(e)`, final period. -/
def kbErr (m : String) : String := kbPre ++ m ++ "."

/-- Outcome of the response-extraction `try` body (lines 189-195) applied to
a successfully parsed value:
* `ret` — the early `return (choices[0]["messages"] or "").strip()`;
* `fallthrough` — drop out of the `if`/`try` to `return out_str`, which is
  also where a caught `KeyError`/`IndexError` lands via `pass`;
* `raised` — an exception not in the caught tuple propagates to the outer
  handler (`TypeError` from subscripting a number/bool, `AttributeError`
  from calling `.strip()` on a truthy non-string). -/
inductive HandleStep where
  | ret (s : String) : HandleStep
  | fallthrough : HandleStep
  | raised (msg : String) : HandleStep
deriving DecidableEq

/-- Embedding of lines 190-193: `choices = data.get("choices") or []`, then
`if choices and isinstance(choices[0], dict) and "messages" in choices[0]`.
A truthy dict under `choices` raises `KeyError` at `choices[0]` (caught, so
it falls through); a truthy string indexes to its first character (not a
dict, falls through); a truthy number or bool raises `TypeError` (not
caught).  `data` is always a dict here since the parsed text begins with a
brace, but the non-dict case is kept as the `AttributeError` it would
raise. -/
def extractChoices (data : Json) : HandleStep :=
  match data with
  | Json.obj fs =>
    let choicesVal := (lookupLast fs "choices").getD Json.null
    if pyTruthy choicesVal then
      match choicesVal with
      | Json.arr [] => HandleStep.fallthrough
      | Json.arr (c0 :: _) =>
        (match c0 with
         | Json.obj cfs =>
           (match lookupLast cfs "messages" with
            | some v =>
              if pyTruthy v then
                match v with
                | Json.str s => HandleStep.ret (pyStrip s)
                | _ => HandleStep.raised "AttributeError"
              else HandleStep.ret ""
            | none => HandleStep.fallthrough)
         | _ => HandleStep.fallthrough)
      | Json.str _ => HandleStep.fallthrough
      | Json.obj _ => HandleStep.fallthrough
      | Json.num _ => HandleStep.raised "TypeError"
      | Json.bool _ => HandleStep.raised "TypeError"
      | Json.null => HandleStep.fallthrough
    else HandleStep.fallthrough
  | _ => HandleStep.raised "AttributeError"

/-- Python `out_str.startswith(leftbrace)`: the first character is an
opening brace. -/
def startsWithLbr (s : String) : Bool :=
  match s.data with
  | c :: _ => c = lbr
  | [] => false

/-- Embedding of lines 186-196: the stripped first column is returned
as-is unless it starts with a brace and parses as JSON, in which case the
first choice's message text is extracted; a parse failure is caught and
falls back to the raw text; an uncaught extraction exception propagates. -/
def processResponse (out_str : String) : Outcome String :=
  if startsWithLbr out_str then
    match json_loads out_str with
    | some data =>
      match extractChoices data with
      | HandleStep.ret s => Outcome.ok s
      | HandleStep.fallthrough => Outcome.ok out_str
      | HandleStep.raised m => Outcome.exn m
    | none => Outcome.ok out_str
  else Outcome.ok out_str

/-- Row handling of `_run_snowflake_sync` after a successful query
(lines 177-196), wrapped by the outer handler for any propagating
exception. -/
def handleFetch (fetched : Option (Option String)) : String :=
  match fetched with
  | none => "No response from Snowflake."
  | some none => "Empty response from Snowflake."
  | some (some out) =>
    let out_str := pyStrip out
    match processResponse out_str with
    | Outcome.ok s => s
    | Outcome.exn m => kbErr m

/-- Embedding of `_run_snowflake_sync` (lines 122-205).  The executed
statement (custom SQL vs the default CORTEX.COMPLETE call, lines 163-175)
affects the modelled behaviour only through the `execute` oracle, so
`question`, `model`, `system_instruction` and `custom_sql` are carried but
unobserved.  Every exception raised inside the `try` is converted by the
handler at lines 197-199. -/
def run_snowflake_sync (env : SnowEnv) (wh : Warehouse) (question : String)
    (model : String) (system_instruction : Option String)
    (custom_sql : Option String) : String :=
  if ¬ (truthyEnv env.account && truthyEnv env.user) then
    "Snowflake is not configured (set SNOWFLAKE_ACCOUNT and SNOWFLAKE_USER)."
  else
    let connected : String :=
      match wh.connect with
      | Outcome.exn m => kbErr m
      | Outcome.ok _ =>
        match wh.execute with
        | Outcome.exn m => kbErr m
        | Outcome.ok _ => handleFetch wh.fetchone
    if truthyEnv env.password then connected
    else if truthyEnv env.privateKeyPath then
      match wh.keyLoad with
      | Outcome.exn m => kbErr m
      | Outcome.ok _ => connected
    else
      "Snowflake credentials missing (set SNOWFLAKE_PASSWORD or SNOWFLAKE_PRIVATE_KEY_PATH)."

/-- Embedding of `get_snowflake_rag_response` (lines 208-232): resolve the
model, system instruction and custom SQL from the arguments or the
environment, then run `_run_snowflake_sync` on the executor and return its
string. -/
def get_snowflake_rag_response (env : SnowEnv) (wh : Warehouse)
    (question : String) (model : Option String)
    (system_instruction : Option String) (custom_sql : Option String) : String :=
  let m := if truthyEnv model then envD model else env.ragModel.getD "mistral-large"
  let si := if truthyEnv system_instruction then system_instruction
    else env.ragSystemInstruction
  let cs := if truthyEnv custom_sql then custom_sql else env.ragSql
  run_snowflake_sync env wh question m si cs

/-! Embedding of `src/rime_agent.py`. -/

/-- Rendering of a rational for `str()` of a modelled number.  Python
renders floats in decimal notation; this rendering is an approximation
(num or num/den) documented here because no verified claim evaluates
`str()` on a numeric payload. -/
def ratRepr (q : ℚ) : String :=
  if q.den = 1 then toString q.num else toString q.num ++ "/" ++ toString q.den

/-- Python `repr` of a modelled value (used by `str()` on lists/dicts):
strings quoted with single quotes, lists bracketed, dicts braced. -/
def pyRepr : Json → String
  | Json.null => "None"
  | Json.bool true => "True"
  | Json.bool false => "False"
  | Json.num q => ratRepr q
  | Json.str s => sq ++ s ++ sq
  | Json.arr xs =>
    "[" ++ String.intercalate ", " (xs.attach.map (fun x => pyRepr x.1)) ++ "]"
  | Json.obj fs =>
    lbr.toString ++
      String.intercalate ", "
        (fs.attach.map (fun p => sq ++ p.1.1 ++ sq ++ ": " ++ pyRepr p.1.2)) ++
      rbr.toString
termination_by v => sizeOf v
decreasing_by
  · have := List.sizeOf_lt_of_mem x.2
    simp only [Json.arr.sizeOf_spec]
    omega
  · have h1 := List.sizeOf_lt_of_mem p.2
    have h2 : sizeOf p.1.2 < sizeOf p.1 := by
      rcases p.1 with ⟨a, b⟩
      simp
      try omega
    simp only [Json.obj.sizeOf_spec]
    omega

/-- Python `str()` of a modelled value: identity on strings, `None`, `True`
and `False` spelled out, `repr` for containers. -/
def pyStr : Json → String
  | Json.str s => s
  | v => pyRepr v

/-- The resolved per-session profile produced by the `LOADED_CONFIG` branch
of `entrypoint` (lines 86-104): the values handed to `rime.TTS`, the LLM
prompt and the greeting phrase.  Fields hold the raw configured values
(`dict.get` returns whatever the document contains). -/
structure ResolvedProfile where
  voice_name : Json
  tts_provider : Json
  tts_model : Json
  tts_speaker : Json
  tts_speed_alpha : Json
  tts_reduce_latency : Json
  tts_max_tokens : Json
  llm_prompt : Json
  intro_phrase : Json

/-- Embedding of the `LOADED_CONFIG` branch of `entrypoint` (lines 86-104):
each field is read with `dict.get` and the documented default.  A non-dict
document or a non-dict `voice_options`/`greeting` value raises
`AttributeError` exactly where the source would. -/
def resolve_loaded_config (cfg : Json) : Outcome ResolvedProfile := do
  let voice_name ← dictGet cfg "name" (Json.str "custom")
  let tts_provider ← dictGet cfg "tts_type" (Json.str "rime")
  let voice_options ← dictGet cfg "voice_options" (Json.obj [])
  let m ← dictGet voice_options "model" (Json.str "arcana")
  let spk ← dictGet voice_options "speaker" (Json.str "celeste")
  let spd ← dictGet voice_options "speed_alpha" (Json.num (3 / 2))
  let rl ← dictGet voice_options "reduce_latency" (Json.bool true)
  let mt ← dictGet voice_options "max_tokens" (Json.num 3400)
  let prompt ← dictGet cfg "personality_prompt"
    (Json.str "You are a helpful assistant.")
  let greeting ← dictGet cfg "greeting" (Json.obj [])
  let intro ← dictGet greeting "intro_phrase" (Json.str "Hello!")
  pure ⟨voice_name, tts_provider, m, spk, spd, rl, mt, prompt, intro⟩

/-- The two agent variants of lines 163-169. -/
inductive AgentKind where
  | plain : AgentKind
  | withSnowflakeRag : AgentKind
deriving DecidableEq

/-- Python `needle in xs` for a list: equality against each element (a
string only ever equals a string element). -/
def strMem (needle : String) (xs : List Json) : Bool :=
  xs.any (fun x =>
    match x with
    | Json.str s => s = needle
    | _ => false)

/-- Python `needle in container`: list membership, dict key membership,
substring test on strings, `TypeError` otherwise. -/
def pyIn (needle : String) (container : Json) : Outcome Bool :=
  match container with
  | Json.arr xs => Outcome.ok (strMem needle xs)
  | Json.obj fs => Outcome.ok ((lookupLast fs needle).isSome)
  | Json.str s => Outcome.ok (decide (needle.data <:+: s.data))
  | _ => Outcome.exn "TypeError"

/-- Embedding of the tool-gating branch (lines 163-169):
`tools_list = (LOADED_CONFIG or {}).get("tools") or []`, then construct the
RAG-augmented agent iff `"snowflake_rag" in tools_list`. -/
def choose_agent (loaded : Option Json) : Outcome AgentKind := do
  let base :=
    match loaded with
    | some cfg => if pyTruthy cfg then cfg else Json.obj []
    | none => Json.obj []
  let toolsRaw ← dictGet base "tools" Json.null
  let tools_list := if pyTruthy toolsRaw then toolsRaw else Json.arr []
  let b ← pyIn "snowflake_rag" tools_list
  pure (if b then AgentKind.withSnowflakeRag else AgentKind.plain)

/-- Join of list content (line 149):
`" ".join(str(c) for c in text if isinstance(c, str))` — non-string
fragments are dropped, string fragments joined with single spaces. -/
def joinStrFragments (xs : List Json) : String :=
  String.intercalate " "
    (xs.filterMap (fun x =>
      match x with
      | Json.str s => some s
      | _ => none))

/-- One conversation-item event as seen by the observer: the attribute
values `getattr` finds on `ev.item` (or `ev` itself).  An absent `role`,
`text_content` or `content` attribute behaves as its `None` default, so it
is modelled as `Json.null`; the `message` attribute is kept as an `Option`
because its absence selects the `{}` default dict. -/
structure ConvEvent where
  role : Json
  message : Option Json
  text_content : Json
  content : Json

/-- Role extraction (line 146):
`getattr(item, "role", None) or getattr(item, "message", {}).get("role", "user")`.
A present non-dict `message` attribute raises `AttributeError` at `.get`. -/
def resolve_role (ev : ConvEvent) : Outcome Json :=
  if pyTruthy ev.role then Outcome.ok ev.role
  else
    match ev.message.getD (Json.obj []) with
    | Json.obj fs => Outcome.ok ((lookupLast fs "role").getD (Json.str "user"))
    | _ => Outcome.exn "AttributeError"

/-- Text extraction (lines 147-149 plus the `str(text)` at line 152):
`text_content or content or ""`, lists joined by `joinStrFragments`,
everything else via `str()`. -/
def resolve_text (ev : ConvEvent) : String :=
  let text0 :=
    if pyTruthy ev.text_content then ev.text_content
    else if pyTruthy ev.content then ev.content
    else Json.str ""
  match text0 with
  | Json.arr xs => joinStrFragments xs
  | v => pyStr v

/-- What the observer does with one event: schedule a fire-and-forget write
with the given role and text, silently skip, or swallow an extraction
exception with a debug log (lines 154-155). -/
inductive ObsAction where
  | scheduled (role : Json) (text : String) : ObsAction
  | skipped : ObsAction
  | swallowed (msg : String) : ObsAction

/-- Embedding of `_on_conversation_item_added` (lines 142-155): extract role
and text, and schedule a transcript write iff the role is truthy and the
text is non-blank after stripping; any extraction error is caught. -/
def on_conversation_item_added (ev : ConvEvent) : ObsAction :=
  match resolve_role ev with
  | Outcome.exn m => ObsAction.swallowed m
  | Outcome.ok role =>
    let text := resolve_text ev
    if pyTruthy role && !(pyStrip text).isEmpty then ObsAction.scheduled role text
    else ObsAction.skipped

/-- A value declared under `sentence_tokenizer` in a built-in voice profile:
whether it satisfies `isinstance(_, tokenizer.SentenceTokenizer)`, and its
type name (used in the error message). -/
structure TokenizerVal where
  isSentenceTokenizer : Bool
  typeName : String
deriving DecidableEq

/-- A built-in voice profile from the `VOICE_CONFIGS` table (the table
itself lives in `agent_configs.py`, outside the repository snapshot; the
profile is therefore an arbitrary parameter here).  `sentence_tokenizer`
models `.get("sentence_tokenizer")` under the truthiness test of line 112:
`none` covers both an absent key and a falsy value; tokenizer objects are
truthy. -/
structure BuiltinProfile where
  sentence_tokenizer : Option TokenizerVal
  llm_prompt : String
  intro_phrase : String
deriving DecidableEq

/-- Whether the TTS capability was wrapped in the sentence-segmentation
`StreamAdapter` (line 118). -/
inductive TtsSetup where
  | plainTts : TtsSetup
  | wrapped : TtsSetup
deriving DecidableEq

/-- The `TypeError` message raised at lines 115-117. -/
def typeErrMsg (tok : TokenizerVal) : String :=
  "Expected sentence_tokenizer to be an instance of tokenizer.SentenceTokenizer, got " ++
    tok.typeName

/-- Embedding of lines 112-118: a declared sentence tokenizer must be an
instance of the expected capability interface, else a `TypeError` is
raised; otherwise the TTS is wrapped in the stream adapter. -/
def setup_builtin_tts (p : BuiltinProfile) : Outcome TtsSetup :=
  match p.sentence_tokenizer with
  | none => Outcome.ok TtsSetup.plainTts
  | some tok =>
    if tok.isSentenceTokenizer then Outcome.ok TtsSetup.wrapped
    else Outcome.exn (typeErrMsg tok)

/-- Result of one `entrypoint` run up to `session.start`: either a
propagating exception before the session is started (`fatal`), or a started
session carrying the TTS setup, the constructed agent variant, the prompt
and the greeting (`running`). -/
inductive EntryResult where
  | fatal (msg : String) : EntryResult
  | running (ts : TtsSetup) (agent : AgentKind) (prompt : Json) (intro : Json) :
      EntryResult

/-- The built-in-profile branch of `entrypoint` (lines 105-121) followed by
agent selection and session start. -/
def entrypoint_builtin (loaded : Option Json) (builtin : BuiltinProfile) :
    EntryResult :=
  match setup_builtin_tts builtin with
  | Outcome.exn m => EntryResult.fatal m
  | Outcome.ok ts =>
    match choose_agent loaded with
    | Outcome.exn m => EntryResult.fatal m
    | Outcome.ok kind =>
      EntryResult.running ts kind (Json.str builtin.llm_prompt)
        (Json.str builtin.intro_phrase)

/-- Embedding of the configuration-and-construction stages of `entrypoint`
(lines 86-171): pick the loaded-config branch when `LOADED_CONFIG` is
truthy, else the built-in branch; resolve the profile (possibly raising),
choose the agent variant, and only then start the session.  `running` is
reached exactly when no configuration step raised. -/
def entrypointModel (loaded : Option Json) (builtin : BuiltinProfile) :
    EntryResult :=
  match loaded with
  | some cfg =>
    if pyTruthy cfg then
      match resolve_loaded_config cfg with
      | Outcome.exn m => EntryResult.fatal m
      | Outcome.ok rp =>
        match choose_agent loaded with
        | Outcome.exn m => EntryResult.fatal m
        | Outcome.ok kind =>
          EntryResult.running TtsSetup.plainTts kind rp.llm_prompt rp.intro_phrase
    else entrypoint_builtin loaded builtin
  | none => entrypoint_builtin loaded builtin

/-! Shared fixtures and helper lemmas. -/

/-- Environment with account, user and password configured and nothing
else. -/
def envPw : SnowEnv :=
  ⟨some "acct", some "user", some "pw", none, none, none, none, none, none,
    none, none, none, none, none, none⟩

/-- Environment with password credentials and a valid chat table. -/
def envPwChat : SnowEnv :=
  ⟨some "acct", some "user", some "pw", none, none, none, none, none, none,
    some "chat_log", none, none, none, none, none⟩

/-- Environment with password credentials and a chat table configured with
surrounding spaces. -/
def envPwChatPad : SnowEnv :=
  ⟨some "acct", some "user", some "pw", none, none, none, none, none, none,
    some " users ", none, none, none, none, none⟩

/-- Environment with identity but no credential, and a valid chat table. -/
def envNoCred : SnowEnv :=
  ⟨some "acct", some "user", none, none, none, none, none, none, none,
    some "chat_log", none, none, none, none, none⟩

/-- Warehouse oracle where every operation succeeds and the fetch returns
the given row. -/
def whOk (fetch : Option (Option String)) : Warehouse :=
  ⟨Outcome.ok (), Outcome.ok (), Outcome.ok (), Outcome.ok (), fetch⟩

/-- Warehouse oracle whose connect raises. -/
def whConnErr : Warehouse :=
  ⟨Outcome.ok (), Outcome.exn "boom", Outcome.ok (), Outcome.ok (), none⟩

/-- The example warehouse result used by the specification. -/
def parisJson : String :=
  "\x7b\"choices\":[\x7b\"messages\":\"Paris is the capital.\"\x7d]\x7d"

/-- Concatenation of strings is associative (by reduction to lists). -/
theorem string_append_assoc (a b c : String) : a ++ b ++ c = a ++ (b ++ c) := by
  obtain ⟨la⟩ := a
  obtain ⟨lb⟩ := b
  obtain ⟨lc⟩ := c
  show String.mk (la ++ lb ++ lc) = String.mk (la ++ (lb ++ lc))
  rw [List.append_assoc]

/-- With identity and password configured and a successful connect and
execute, `_run_snowflake_sync` reduces to the row handling of its fetch. -/
theorem run_reaches_fetch (env : SnowEnv) (wh : Warehouse) (q mdl : String)
    (si cs : Option String)
    (hacct : truthyEnv env.account = true) (huser : truthyEnv env.user = true)
    (hpw : truthyEnv env.password = true)
    (hconn : wh.connect = Outcome.ok ()) (hexec : wh.execute = Outcome.ok ()) :
    run_snowflake_sync env wh q mdl si cs = handleFetch wh.fetchone := by
  simp [run_snowflake_sync, hacct, huser, hpw, hconn, hexec]

/-- Row handling when the stripped value is JSON-shaped, parses as an
object, and carries a first choice with a string under `messages`: the
stripped message text is returned. -/
theorem handleFetch_msg (out : String) (fs cfs : List (String × Json))
    (rest : List Json) (m : String)
    (hstart : startsWithLbr (pyStrip out) = true)
    (hparse : json_loads (pyStrip out) = some (Json.obj fs))
    (hch : lookupLast fs "choices" = some (Json.arr (Json.obj cfs :: rest)))
    (hm : lookupLast cfs "messages" = some (Json.str m)) :
    handleFetch (some (some out)) = pyStrip m := by
  simp only [handleFetch, processResponse, hstart, if_true, hparse,
    extractChoices, hch, Option.getD_some, hm]
  by_cases h0 : m = ""
  · subst h0
    simp [pyTruthy, pyStrip]
  · simp [pyTruthy, h0]

/-- Row handling when the stripped value is not JSON-shaped or fails to
parse: the stripped raw text is returned. -/
theorem handleFetch_raw (out : String)
    (h : startsWithLbr (pyStrip out) = false ∨ json_loads (pyStrip out) = none) :
    handleFetch (some (some out)) = pyStrip out := by
  rcases h with h | h
  · simp [handleFetch, processResponse, h]
  · by_cases hs : startsWithLbr (pyStrip out)
    · simp [handleFetch, processResponse, hs, h]
    · simp [handleFetch, processResponse, hs]

/-- Row handling when the first choice maps `messages` to `null` or the
empty string: the empty string is returned. -/
theorem handleFetch_falsy_msg (out : String) (fs cfs : List (String × Json))
    (rest : List Json) (v : Json)
    (hstart : startsWithLbr (pyStrip out) = true)
    (hparse : json_loads (pyStrip out) = some (Json.obj fs))
    (hch : lookupLast fs "choices" = some (Json.arr (Json.obj cfs :: rest)))
    (hm : lookupLast cfs "messages" = some v)
    (hv : v = Json.null ∨ v = Json.str "") :
    handleFetch (some (some out)) = "" := by
  simp only [handleFetch, processResponse, hstart, if_true, hparse,
    extractChoices, hch, Option.getD_some, hm]
  rcases hv with hv | hv <;> subst hv <;> simp [pyTruthy]

/-! Claim theorems. -/

/-- C1: for every warehouse result handled by `_run_snowflake_sync` on the
success path, a missing row yields the fixed no-response string; a NULL
first column yields the fixed empty-response string; a JSON-shaped value
whose `choices` list starts with an object carrying a string `messages`
yields that message trimmed (the specification's example yields exactly
"Paris is the capital."); a non-JSON-shaped or unparseable value is
returned as trimmed plain text (the raw result "42" yields "42"). -/
theorem c1_retrieval_response_handling (env : SnowEnv) (wh : Warehouse)
    (q mdl : String) (si cs : Option String)
    (hacct : truthyEnv env.account = true) (huser : truthyEnv env.user = true)
    (hpw : truthyEnv env.password = true)
    (hconn : wh.connect = Outcome.ok ()) (hexec : wh.execute = Outcome.ok ()) :
    (wh.fetchone = none →
      run_snowflake_sync env wh q mdl si cs = "No response from Snowflake.") ∧
    (wh.fetchone = some none →
      run_snowflake_sync env wh q mdl si cs = "Empty response from Snowflake.") ∧
    (∀ out fs cfs rest m, wh.fetchone = some (some out) →
      startsWithLbr (pyStrip out) = true →
      json_loads (pyStrip out) = some (Json.obj fs) →
      lookupLast fs "choices" = some (Json.arr (Json.obj cfs :: rest)) →
      lookupLast cfs "messages" = some (Json.str m) →
      run_snowflake_sync env wh q mdl si cs = pyStrip m) ∧
    (∀ out, wh.fetchone = some (some out) →
      startsWithLbr (pyStrip out) = false ∨ json_loads (pyStrip out) = none →
      run_snowflake_sync env wh q mdl si cs = pyStrip out) ∧
    (wh.fetchone = some (some parisJson) →
      run_snowflake_sync env wh q mdl si cs = "Paris is the capital.") ∧
    (wh.fetchone = some (some "42") →
      run_snowflake_sync env wh q mdl si cs = "42") := by
  have hrf := run_reaches_fetch env wh q mdl si cs hacct huser hpw hconn hexec
  refine ⟨?_, ?_, ?_, ?_, ?_, ?_⟩
  · intro h
    rw [hrf, h]
    rfl
  · intro h
    rw [hrf, h]
    rfl
  · intro out fs cfs rest m hf hstart hparse hch hm
    rw [hrf, hf]
    exact handleFetch_msg out fs cfs rest m hstart hparse hch hm
  · intro out hf h
    rw [hrf, hf]
    exact handleFetch_raw out h
  · intro h
    rw [hrf, h]
    rfl
  · intro h
    rw [hrf, h]
    rfl

/-- C1 witness: the specification's example result produces exactly the
extracted message text on a concrete configured environment. -/
theorem c1_retrieval_response_handling_witness :
    run_snowflake_sync envPw (whOk (some (some parisJson))) "q" "mistral-large"
      none none = "Paris is the capital." :=
  (c1_retrieval_response_handling envPw (whOk (some (some parisJson))) "q"
    "mistral-large" none none rfl rfl rfl rfl rfl).2.2.2.2.1 rfl

/-- C2: the retrieval tool call always returns a string (the embedding is a
total function into `String`), and an exception raised while loading the
private key, connecting, or executing the query is caught and converted to
the fixed knowledge-base error string, which is the fixed prefix followed
by the exception text. -/
theorem c2_tool_never_raises (env : SnowEnv) (wh : Warehouse) (q : String)
    (mo si cs : Option String) :
    (∀ m, truthyEnv env.account = true → truthyEnv env.user = true →
      truthyEnv env.password = false → truthyEnv env.privateKeyPath = true →
      wh.keyLoad = Outcome.exn m →
      get_snowflake_rag_response env wh q mo si cs = kbErr m) ∧
    (∀ m, truthyEnv env.account = true → truthyEnv env.user = true →
      (truthyEnv env.password = true ∨
        (truthyEnv env.password = false ∧ truthyEnv env.privateKeyPath = true ∧
          wh.keyLoad = Outcome.ok ())) →
      wh.connect = Outcome.exn m →
      get_snowflake_rag_response env wh q mo si cs = kbErr m) ∧
    (∀ m, truthyEnv env.account = true → truthyEnv env.user = true →
      (truthyEnv env.password = true ∨
        (truthyEnv env.password = false ∧ truthyEnv env.privateKeyPath = true ∧
          wh.keyLoad = Outcome.ok ())) →
      wh.connect = Outcome.ok () → wh.execute = Outcome.exn m →
      get_snowflake_rag_response env wh q mo si cs = kbErr m) ∧
    (∀ m, kbErr m = kbPre ++ (m ++ ".")) := by
  refine ⟨?_, ?_, ?_, ?_⟩
  · intro m hacct huser hpw hpath hkey
    simp [get_snowflake_rag_response, run_snowflake_sync, hacct, huser, hpw,
      hpath, hkey]
  · intro m hacct huser hcred hconn
    rcases hcred with hpw | hcred3
    · simp [get_snowflake_rag_response, run_snowflake_sync, hacct, huser, hpw,
        hconn]
    · obtain ⟨hpw, hpath, hkey⟩ := hcred3
      simp [get_snowflake_rag_response, run_snowflake_sync, hacct, huser, hpw,
        hpath, hkey, hconn]
  · intro m hacct huser hcred hconn hexec
    rcases hcred with hpw | hcred3
    · simp [get_snowflake_rag_response, run_snowflake_sync, hacct, huser, hpw,
        hconn, hexec]
    · obtain ⟨hpw, hpath, hkey⟩ := hcred3
      simp [get_snowflake_rag_response, run_snowflake_sync, hacct, huser, hpw,
        hpath, hkey, hconn, hexec]
  · intro m
    rw [kbErr, string_append_assoc]

/-- C2 witness: a concrete connection failure is converted to the
knowledge-base error string. -/
theorem c2_tool_never_raises_witness :
    get_snowflake_rag_response envPw whConnErr "q" none none none =
      kbErr "boom" :=
  (c2_tool_never_raises envPw whConnErr "q" none none none).2.1 "boom" rfl rfl
    (Or.inl rfl) rfl

/-- Environment with password credentials and a chat table that fails the
identifier pattern even after trimming. -/
def envPwChatBad : SnowEnv :=
  ⟨some "acct", some "user", some "pw", none, none, none, none, none, none,
    some "bad-table", none, none, none, none, none⟩

/-- Strings and their character lists are empty together. -/
theorem mk_eq_empty_iff (l : List Char) : String.mk l = "" ↔ l = [] := by
  constructor
  · intro h
    exact congrArg String.data h
  · intro h
    rw [h]

/-- C3 counterexample: the configured chat-table name, as configured, is
`" users "`, which does not match `^[A-Za-z0-9_]+$`; yet with credentials
configured and a non-blank message the logger connects and inserts, because
the source strips the name before validating it.  The claim as stated is
therefore false for names with surrounding whitespace. -/
theorem c3_padded_table_counterexample :
    envPwChatPad.chatTable = some " users " ∧
    reMatchIdent " users " = false ∧
    connectionAttempted
      (write_chat_to_snowflake_sync envPwChatPad (whOk none) "t0" "s1" "p1"
        "user" "hi" "agent") = true ∧
    insertedMessage
      (write_chat_to_snowflake_sync envPwChatPad (whOk none) "t0" "s1" "p1"
        "user" "hi" "agent") = some "hi" := by
  refine ⟨rfl, by decide, rfl, rfl⟩

/-- C3 (amended): for every configured chat-table name whose trimmed form
does not match `^[A-Za-z0-9_]+$`, the logger performs no connection attempt
and no insert; when additionally the trimmed name is non-empty and the
message is non-blank, it returns exactly via the warning branch; and
conversely the branch that interpolates the table name into SQL text is
reached only when the trimmed name matches the pattern. -/
theorem c3_trimmed_table_guard (env : SnowEnv) (wh : Warehouse)
    (now sid pid role msg agent : String) :
    (reMatchIdent (pyStrip (envD env.chatTable)) = false →
      connectionAttempted
        (write_chat_to_snowflake_sync env wh now sid pid role msg agent) = false ∧
      insertedMessage
        (write_chat_to_snowflake_sync env wh now sid pid role msg agent) = none) ∧
    (reMatchIdent (pyStrip (envD env.chatTable)) = false →
      pyStrip (envD env.chatTable) ≠ "" → msg ≠ "" → pyStrip msg ≠ "" →
      write_chat_to_snowflake_sync env wh now sid pid role msg agent =
        WriteOutcome.skippedBadTable) ∧
    (connectionAttempted
        (write_chat_to_snowflake_sync env wh now sid pid role msg agent) = true →
      reMatchIdent (pyStrip (envD env.chatTable)) = true) := by
  have hA : reMatchIdent (pyStrip (envD env.chatTable)) = false →
      connectionAttempted
        (write_chat_to_snowflake_sync env wh now sid pid role msg agent) = false ∧
      insertedMessage
        (write_chat_to_snowflake_sync env wh now sid pid role msg agent) = none := by
    intro hbad
    constructor
    · simp only [write_chat_to_snowflake_sync, hbad]
      split
      · simp [connectionAttempted]
      · simp [connectionAttempted]
    · simp only [write_chat_to_snowflake_sync, hbad]
      split
      · simp [insertedMessage]
      · simp [insertedMessage]
  refine ⟨hA, ?_, ?_⟩
  · intro hbad htab hm1 hm2
    simp [write_chat_to_snowflake_sync, hbad, htab, hm1, hm2]
  · intro hca
    by_cases hr : reMatchIdent (pyStrip (envD env.chatTable))
    · exact hr
    · have hbad : reMatchIdent (pyStrip (envD env.chatTable)) = false := by
        simpa using hr
      rw [(hA hbad).1] at hca
      exact absurd hca (by simp)

/-- C3 (amended) witness: a dash in the configured name is refused with the
warning branch and nothing is inserted. -/
theorem c3_trimmed_table_guard_witness :
    write_chat_to_snowflake_sync envPwChatBad (whOk none) "t0" "s1" "p1"
      "user" "hi" "agent" = WriteOutcome.skippedBadTable :=
  (c3_trimmed_table_guard envPwChatBad (whOk none) "t0" "s1" "p1" "user" "hi"
    "agent").2.1 (by decide) (by decide) (by decide) (by decide)

/-- C5: a blank (empty or whitespace-only) message makes the transcript
logger a silent no-op regardless of table configuration — it exits through
the first guard, before the table warning, the connection-parameter lookup
and any connection attempt; and consequently any message column value that
is actually inserted is non-empty. -/
theorem c5_blank_message_noop (env : SnowEnv) (wh : Warehouse)
    (now sid pid role msg agent : String) :
    (pyStrip msg = "" →
      write_chat_to_snowflake_sync env wh now sid pid role msg agent =
        WriteOutcome.skippedBlank) ∧
    (∀ m, insertedMessage
        (write_chat_to_snowflake_sync env wh now sid pid role msg agent) =
          some m → m ≠ "") := by
  constructor
  · intro h
    simp [write_chat_to_snowflake_sync, h]
  · intro m hm
    by_cases h3 : pyStrip msg = ""
    · simp [write_chat_to_snowflake_sync, h3, insertedMessage] at hm
    · simp only [write_chat_to_snowflake_sync] at hm
      split at hm
      · simp [insertedMessage] at hm
      · split at hm
        · simp [insertedMessage] at hm
        · split at hm
          · simp [insertedMessage] at hm
          · simp [insertedMessage] at hm
          · split at hm
            · simp [insertedMessage] at hm
            · split at hm
              · simp [insertedMessage] at hm
              · split at hm
                · simp [insertedMessage] at hm
                · simp only [insertedMessage, Option.some.injEq] at hm
                  subst hm
                  rw [Ne, mk_eq_empty_iff]
                  intro htake
                  rcases List.take_eq_nil_iff.mp htake with h | h
                  · omega
                  · exact h3 ((mk_eq_empty_iff _).mpr h)

/-- C5 witness: a whitespace-only message is dropped silently even with a
valid table and full credentials configured. -/
theorem c5_blank_message_noop_witness :
    write_chat_to_snowflake_sync envPwChat (whOk none) "t0" "s1" "p1" "user"
      "  " "agent" = WriteOutcome.skippedBlank :=
  (c5_blank_message_noop envPwChat (whOk none) "t0" "s1" "p1" "user" "  "
    "agent").1 (by decide)

/-- C9: with account and user set but neither password nor private-key path
set, `_get_connection_params` returns `None`; the transcript logger then
skips the write through its not-configured warning branch (no connection
attempt, no exception) even with a valid table and non-blank message; while
`_run_snowflake_sync` on the same environment returns the distinct
credentials-missing string. -/
theorem c9_missing_credentials (env : SnowEnv) (wh : Warehouse)
    (now sid pid role msg agent q mdl : String) (si cs : Option String)
    (hacct : truthyEnv env.account = true) (huser : truthyEnv env.user = true)
    (hpw : truthyEnv env.password = false)
    (hpath : truthyEnv env.privateKeyPath = false) :
    get_connection_params env wh.keyLoad = Outcome.ok none ∧
    (pyStrip (envD env.chatTable) ≠ "" →
      reMatchIdent (pyStrip (envD env.chatTable)) = true →
      msg ≠ "" → pyStrip msg ≠ "" →
      write_chat_to_snowflake_sync env wh now sid pid role msg agent =
        WriteOutcome.skippedNotConfigured) ∧
    run_snowflake_sync env wh q mdl si cs =
      "Snowflake credentials missing (set SNOWFLAKE_PASSWORD or SNOWFLAKE_PRIVATE_KEY_PATH)." := by
  have hparams : get_connection_params env wh.keyLoad = Outcome.ok none := by
    simp [get_connection_params, hacct, huser, hpw, hpath]
  refine ⟨hparams, ?_, ?_⟩
  · intro htab hr hm1 hm2
    simp [write_chat_to_snowflake_sync, hparams, htab, hr, hm1, hm2]
  · simp [run_snowflake_sync, hacct, huser, hpw, hpath]

/-- C9 witness: the concrete no-credential environment is skipped by the
logger and answered with the credentials-missing string by the tool. -/
theorem c9_missing_credentials_witness :
    get_connection_params envNoCred (whOk none).keyLoad = Outcome.ok none ∧
    write_chat_to_snowflake_sync envNoCred (whOk none) "t0" "s1" "p1" "user"
      "hi" "agent" = WriteOutcome.skippedNotConfigured ∧
    run_snowflake_sync envNoCred (whOk none) "q" "mistral-large" none none =
      "Snowflake credentials missing (set SNOWFLAKE_PASSWORD or SNOWFLAKE_PRIVATE_KEY_PATH)." := by
  have h := c9_missing_credentials envNoCred (whOk none) "t0" "s1" "p1" "user"
    "hi" "agent" "q" "mistral-large" none none rfl rfl rfl rfl
  exact ⟨h.1, h.2.1 (by decide) (by decide) (by decide) (by decide), h.2.2⟩

/-- Pure in the outcome monad is a successful value. -/
@[simp] theorem outcome_pure {α : Type} (a : α) :
    (pure a : Outcome α) = Outcome.ok a := rfl

/-- Binding a successful outcome applies the continuation. -/
@[simp] theorem outcome_ok_bind {α β : Type} (a : α) (f : α → Outcome β) :
    Outcome.ok a >>= f = f a := rfl

/-- Binding a raised outcome propagates the exception. -/
@[simp] theorem outcome_exn_bind {α β : Type} (m : String) (f : α → Outcome β) :
    (Outcome.exn m : Outcome α) >>= f = Outcome.exn m := rfl

/-- C4: an external profile document with the optional fields absent
resolves to the documented defaults — TTS model "arcana", speaker
"celeste", speed_alpha 1.5, reduce_latency true, max_tokens 3400, prompt
"You are a helpful assistant." and greeting intro phrase "Hello!" — both
when the containers (`voice_options`, `greeting`) are absent entirely and
when they are present but missing the individual keys. -/
theorem c4_loaded_config_defaults (fs : List (String × Json)) :
    (lookupLast fs "voice_options" = none →
      lookupLast fs "personality_prompt" = none →
      lookupLast fs "greeting" = none →
      resolve_loaded_config (Json.obj fs) =
        Outcome.ok ⟨(lookupLast fs "name").getD (Json.str "custom"),
          (lookupLast fs "tts_type").getD (Json.str "rime"),
          Json.str "arcana", Json.str "celeste", Json.num (3 / 2),
          Json.bool true, Json.num 3400,
          Json.str "You are a helpful assistant.", Json.str "Hello!"⟩) ∧
    (∀ vfs gfs,
      lookupLast fs "voice_options" = some (Json.obj vfs) →
      lookupLast vfs "model" = none → lookupLast vfs "speaker" = none →
      lookupLast vfs "speed_alpha" = none →
      lookupLast vfs "reduce_latency" = none →
      lookupLast vfs "max_tokens" = none →
      lookupLast fs "greeting" = some (Json.obj gfs) →
      lookupLast gfs "intro_phrase" = none →
      resolve_loaded_config (Json.obj fs) =
        Outcome.ok ⟨(lookupLast fs "name").getD (Json.str "custom"),
          (lookupLast fs "tts_type").getD (Json.str "rime"),
          Json.str "arcana", Json.str "celeste", Json.num (3 / 2),
          Json.bool true, Json.num 3400,
          (lookupLast fs "personality_prompt").getD
            (Json.str "You are a helpful assistant."),
          Json.str "Hello!"⟩) := by
  constructor
  · intro h1 h2 h3
    simp [resolve_loaded_config, dictGet, h1, h2, h3, lookupLast]
  · intro vfs gfs h1 h2 h3 h4 h5 h6 h7 h8
    simp [resolve_loaded_config, dictGet, h1, h2, h3, h4, h5, h6, h7, h8]

/-- C4 witness: a document carrying only a name resolves to all documented
defaults. -/
theorem c4_loaded_config_defaults_witness :
    resolve_loaded_config (Json.obj [("name", Json.str "x")]) =
      Outcome.ok ⟨Json.str "x", Json.str "rime", Json.str "arcana",
        Json.str "celeste", Json.num (3 / 2), Json.bool true, Json.num 3400,
        Json.str "You are a helpful assistant.", Json.str "Hello!"⟩ :=
  (c4_loaded_config_defaults [("name", Json.str "x")]).1 rfl rfl rfl

/-- Membership via `strMem` coincides with list membership of the string
value. -/
theorem strMem_iff (needle : String) (ts : List Json) :
    strMem needle ts = true ↔ Json.str needle ∈ ts := by
  induction ts with
  | nil => simp [strMem]
  | cons x rest ih =>
    cases x with
    | str s =>
      by_cases hs : s = needle
      · subst hs
        simp [strMem, List.any_cons]
      · have hs2 : Json.str needle ≠ Json.str s := by
          simp [Ne.symm hs]
        simp only [strMem, List.any_cons] at ih ⊢
        simp [hs, List.mem_cons, hs2, ih]
    | null => simp only [strMem, List.any_cons] at ih ⊢; simp [List.mem_cons, ih]
    | bool b => simp only [strMem, List.any_cons] at ih ⊢; simp [List.mem_cons, ih]
    | num q => simp only [strMem, List.any_cons] at ih ⊢; simp [List.mem_cons, ih]
    | arr xs => simp only [strMem, List.any_cons] at ih ⊢; simp [List.mem_cons, ih]
    | obj fs => simp only [strMem, List.any_cons] at ih ⊢; simp [List.mem_cons, ih]

/-- C6: the session's agent carries the Snowflake RAG tool iff the resolved
enabled-tool list contains "snowflake_rag"; a document without a `tools`
list, and a session without a loaded document, construct the plain agent;
and the agent of every started session is exactly the one selected by this
branch. -/
theorem c6_tool_gating :
    (∀ fs ts, lookupLast fs "tools" = some (Json.arr ts) →
      (choose_agent (some (Json.obj fs)) = Outcome.ok AgentKind.withSnowflakeRag ↔
        Json.str "snowflake_rag" ∈ ts) ∧
      (choose_agent (some (Json.obj fs)) = Outcome.ok AgentKind.plain ↔
        Json.str "snowflake_rag" ∉ ts)) ∧
    (∀ fs, lookupLast fs "tools" = none →
      choose_agent (some (Json.obj fs)) = Outcome.ok AgentKind.plain) ∧
    (choose_agent none = Outcome.ok AgentKind.plain) ∧
    (∀ loaded builtin t k p i,
      entrypointModel loaded builtin = EntryResult.running t k p i →
      choose_agent loaded = Outcome.ok k) := by
  refine ⟨?_, ?_, ?_, ?_⟩
  · intro fs ts h
    have hfs : fs.isEmpty = false := by
      rcases fs with _ | ⟨p, rest⟩
      · simp [lookupLast] at h
      · rfl
    by_cases hts : ts = []
    · subst hts
      simp [choose_agent, hfs, dictGet, h, pyTruthy, pyIn, strMem]
    · have hte : ts.isEmpty = false := by
        rcases ts with _ | _
        · exact absurd rfl hts
        · rfl
      by_cases hmem : Json.str "snowflake_rag" ∈ ts
      · have hsm := (strMem_iff "snowflake_rag" ts).mpr hmem
        simp [choose_agent, hfs, hte, dictGet, h, pyTruthy, pyIn, hsm, hmem]
      · have hsm : strMem "snowflake_rag" ts = false := by
          rcases Bool.eq_false_or_eq_true (strMem "snowflake_rag" ts) with h0 | h0
          · exact absurd ((strMem_iff "snowflake_rag" ts).mp h0) hmem
          · exact h0
        simp [choose_agent, hfs, hte, dictGet, h, pyTruthy, pyIn, hsm, hmem]
  · intro fs h
    by_cases hfs : fs = []
    · subst hfs
      simp [choose_agent, dictGet, pyTruthy, pyIn, strMem, lookupLast]
    · have hie : fs.isEmpty = false := by
        rcases fs with _ | _
        · exact absurd rfl hfs
        · rfl
      simp [choose_agent, hie, dictGet, h, pyTruthy, pyIn, strMem]
  · simp [choose_agent, dictGet, pyTruthy, pyIn, strMem, lookupLast]
  · intro loaded builtin t k p i h
    cases loaded with
    | none =>
      cases hsa : setup_builtin_tts builtin with
      | exn m => simp [entrypointModel, entrypoint_builtin, hsa] at h
      | ok ts2 =>
        cases hca : choose_agent none with
        | exn m => simp [entrypointModel, entrypoint_builtin, hsa, hca] at h
        | ok kind =>
          simp only [entrypointModel, entrypoint_builtin, hsa, hca] at h
          simp only [EntryResult.running.injEq] at h
          rw [h.2.1]
    | some cfg =>
      by_cases hc : pyTruthy cfg
      · cases hrc : resolve_loaded_config cfg with
        | exn m => simp [entrypointModel, hc, hrc] at h
        | ok rp =>
          cases hca : choose_agent (some cfg) with
          | exn m => simp [entrypointModel, hc, hrc, hca] at h
          | ok kind =>
            simp only [entrypointModel, hc, if_true, hrc, hca] at h
            simp only [EntryResult.running.injEq] at h
            rw [h.2.1]
      · have hc2 : pyTruthy cfg = false := by simpa using hc
        cases hsa : setup_builtin_tts builtin with
        | exn m => simp [entrypointModel, entrypoint_builtin, hc2, hsa] at h
        | ok ts2 =>
          cases hca : choose_agent (some cfg) with
          | exn m => simp [entrypointModel, entrypoint_builtin, hc2, hsa, hca] at h
          | ok kind =>
            simp only [entrypointModel, entrypoint_builtin, hc2,
              Bool.false_eq_true, if_false, hsa, hca] at h
            simp only [EntryResult.running.injEq] at h
            rw [h.2.1]

/-- C6 witness: a concrete document listing the retrieval identifier
selects the tool-augmented agent. -/
theorem c6_tool_gating_witness :
    choose_agent (some (Json.obj [("tools", Json.arr [Json.str "snowflake_rag"])])) =
      Outcome.ok AgentKind.withSnowflakeRag :=
  ((c6_tool_gating.1 [("tools", Json.arr [Json.str "snowflake_rag"])]
    [Json.str "snowflake_rag"] rfl).1).mpr (by simp)

/-- C7: the conversation-item observer turns the content list
`["Hello", "there"]` into the logged text "Hello there"; an absent role
with an absent message attribute defaults to "user"; list content is
joined from its string fragments with single spaces; and a write is
scheduled only with a truthy role and text that is non-blank after
trimming. -/
theorem c7_conversation_observer :
    (on_conversation_item_added
        ⟨Json.str "user", none, Json.null,
          Json.arr [Json.str "Hello", Json.str "there"]⟩ =
      ObsAction.scheduled (Json.str "user") "Hello there") ∧
    (∀ ev, pyTruthy ev.role = false → ev.message = none →
      resolve_role ev = Outcome.ok (Json.str "user")) ∧
    (∀ ev xs, ev.text_content = Json.null → ev.content = Json.arr xs →
      xs ≠ [] → resolve_text ev = joinStrFragments xs) ∧
    (∀ ev r t, on_conversation_item_added ev = ObsAction.scheduled r t →
      pyTruthy r = true ∧ pyStrip t ≠ "") := by
  refine ⟨rfl, ?_, ?_, ?_⟩
  · intro ev h1 h2
    simp [resolve_role, h1, h2, lookupLast]
  · intro ev xs h1 h2 hne
    simp [resolve_text, h1, h2, pyTruthy, List.isEmpty_iff, hne]
  · intro ev r t h
    cases hrr : resolve_role ev with
    | exn m => simp [on_conversation_item_added, hrr] at h
    | ok role =>
      simp only [on_conversation_item_added, hrr] at h
      split at h
      · next hcond =>
        simp only [ObsAction.scheduled.injEq] at h
        obtain ⟨hr, ht⟩ := h
        subst hr
        subst ht
        simp only [Bool.and_eq_true, Bool.not_eq_true] at hcond
        obtain ⟨hrole, htext⟩ := hcond
        refine ⟨hrole, ?_⟩
        intro he
        rw [he] at htext
        exact absurd htext (by decide)
      · exact absurd h (by simp)

/-- C7 witness: the role falls back to "user" on an event with no role and
no message attribute. -/
theorem c7_conversation_observer_witness :
    resolve_role ⟨Json.null, none, Json.null, Json.null⟩ =
      Outcome.ok (Json.str "user") :=
  c7_conversation_observer.2.1 ⟨Json.null, none, Json.null, Json.null⟩ rfl rfl

/-- C8: a built-in voice profile declaring a sentence tokenizer that is not
an instance of the expected capability interface makes `entrypoint` raise
the `TypeError` during configuration, so no session is ever started for
it. -/
theorem c8_bad_tokenizer_fatal (builtin : BuiltinProfile) (tok : TokenizerVal)
    (hdecl : builtin.sentence_tokenizer = some tok)
    (hbad : tok.isSentenceTokenizer = false) :
    entrypointModel none builtin = EntryResult.fatal (typeErrMsg tok) ∧
    ∀ t k p i, entrypointModel none builtin ≠ EntryResult.running t k p i := by
  have h1 : entrypointModel none builtin = EntryResult.fatal (typeErrMsg tok) := by
    simp [entrypointModel, entrypoint_builtin, setup_builtin_tts, hdecl, hbad]
  refine ⟨h1, ?_⟩
  intro t k p i hc
  rw [h1] at hc
  exact absurd hc (by simp)

/-- C8 witness: a concrete profile with a non-tokenizer segmentation policy
is fatal. -/
theorem c8_bad_tokenizer_fatal_witness :
    entrypointModel none ⟨some ⟨false, "SomeType"⟩, "p", "hi"⟩ =
      EntryResult.fatal (typeErrMsg ⟨false, "SomeType"⟩) :=
  (c8_bad_tokenizer_fatal ⟨some ⟨false, "SomeType"⟩, "p", "hi"⟩
    ⟨false, "SomeType"⟩ rfl rfl).1

/-- Warehouse result whose first choice maps `messages` to JSON null. -/
def nullMsgJson : String := "\x7b\"choices\":[\x7b\"messages\":null\x7d]\x7d"

/-- Warehouse result whose first choice maps `messages` to the empty
string. -/
def emptyMsgJson : String := "\x7b\"choices\":[\x7b\"messages\":\"\"\x7d]\x7d"

/-- C10: a JSON result whose first choice maps `messages` to null or to the
empty string makes the retrieval tool return the empty string — not the
empty-response fallback and not the raw JSON text (which is non-empty,
since it starts with a brace). -/
theorem c10_falsy_message_empty_answer (env : SnowEnv) (wh : Warehouse)
    (q mdl : String) (si cs : Option String)
    (hacct : truthyEnv env.account = true) (huser : truthyEnv env.user = true)
    (hpw : truthyEnv env.password = true)
    (hconn : wh.connect = Outcome.ok ()) (hexec : wh.execute = Outcome.ok ()) :
    (∀ out fs cfs rest v, wh.fetchone = some (some out) →
      startsWithLbr (pyStrip out) = true →
      json_loads (pyStrip out) = some (Json.obj fs) →
      lookupLast fs "choices" = some (Json.arr (Json.obj cfs :: rest)) →
      lookupLast cfs "messages" = some v →
      v = Json.null ∨ v = Json.str "" →
      run_snowflake_sync env wh q mdl si cs = "" ∧ pyStrip out ≠ "") ∧
    (wh.fetchone = some (some nullMsgJson) →
      run_snowflake_sync env wh q mdl si cs = "") ∧
    (wh.fetchone = some (some emptyMsgJson) →
      run_snowflake_sync env wh q mdl si cs = "") ∧
    "" ≠ "Empty response from Snowflake." := by
  have hrf := run_reaches_fetch env wh q mdl si cs hacct huser hpw hconn hexec
  refine ⟨?_, ?_, ?_, by decide⟩
  · intro out fs cfs rest v hf hstart hparse hch hm hv
    refine ⟨?_, ?_⟩
    · rw [hrf, hf]
      exact handleFetch_falsy_msg out fs cfs rest v hstart hparse hch hm hv
    · intro he
      rw [he] at hstart
      simp [startsWithLbr] at hstart
  · intro h
    rw [hrf, h]
    rfl
  · intro h
    rw [hrf, h]
    rfl

/-- C10 witness: the concrete null-message result yields the empty string
on a configured environment. -/
theorem c10_falsy_message_empty_answer_witness :
    run_snowflake_sync envPw (whOk (some (some nullMsgJson))) "q"
      "mistral-large" none none = "" :=
  (c10_falsy_message_empty_answer envPw (whOk (some (some nullMsgJson))) "q"
    "mistral-large" none none rfl rfl rfl rfl rfl).2.1 rfl

end Galatea
